import Mathlib

/-!
# Verification of the chatluna-storage-service temporary-object storage layer

A shallow embedding of the repository's core: the temp-file metadata model,
the content classifier (`getImageType` in `src/utils.ts`), the recency index
(LRU), the two eviction policies, the dedup create / get paths of the
`ChatLunaStorageService` manager, the SigV4 request signer shared by the S3
and R2 backends, and the delete semantics of all four backends.

Conventions of the embedding:
* Byte buffers (`Buffer`) are `List Nat` (each entry one byte).
* Timestamps (`Date` values) are `Nat` milliseconds since the epoch, as
  produced by `Date.now()`.
* Asynchronous I/O that can fail (`Promise<Buffer>`) is `Except String
  (List Nat)`: a resolved promise is `Except.ok`, a rejected one is
  `Except.error`.  A rejected promise is an ordinary *value*; it only
  surfaces as an exception at an `await`, never at the call that created it.
* The external metadata store (`ctx.database`) is a `List TempFileInfo`;
  koishi's `get` with an equality filter is `List.filter`, `set` is a map
  over the matching rows, `create` appends, `remove` filters out.
* Nondeterministic inputs of the source (`Date.now()`, the random filename,
  the hash function, the network / filesystem) are explicit parameters.
-/

/-- `TempFileInfo` record from `src/types.ts`: one persisted temp object. -/
structure TempFileInfo where
  id : String
  path : String
  name : String
  type : Option String
  expireTime : Nat
  size : Nat
  accessTime : Nat
  accessCount : Nat
  storageType : Option String
  publicUrl : Option String
  hash : String
deriving DecidableEq

/-- `getImageType` from `src/utils.ts`: inspects the leading bytes of a
buffer and reports an image extension (or MIME type when `pure` is false).
Out-of-range byte reads (`buffer[i]` beyond the length) yield JS `undefined`;
all reads below are guarded by the `length < 12` early return, so modelling
them with `List.getD _ _ 0` is exact.  TS `undefined` return is `none`. -/
def getImageType (buffer : List Nat) (pureExt : Bool) (checkIsImage : Bool) :
    Option String :=
  if buffer.length < 12 then
    if checkIsImage then none
    else some (if pureExt then "jpg" else "image/jpeg")
  else if buffer.getD 0 0 = 0x89 ∧ buffer.getD 1 0 = 0x50 ∧
      buffer.getD 2 0 = 0x4e ∧ buffer.getD 3 0 = 0x47 ∧
      buffer.getD 4 0 = 0x0d ∧ buffer.getD 5 0 = 0x0a ∧
      buffer.getD 6 0 = 0x1a ∧ buffer.getD 7 0 = 0x0a then
    some (if pureExt then "png" else "image/png")
  else if buffer.getD 0 0 = 0xff ∧ buffer.getD 1 0 = 0xd8 ∧
      buffer.getD 2 0 = 0xff then
    some (if pureExt then "jpg" else "image/jpeg")
  else if buffer.getD 0 0 = 0x47 ∧ buffer.getD 1 0 = 0x49 ∧
      buffer.getD 2 0 = 0x46 ∧ buffer.getD 3 0 = 0x38 then
    some (if pureExt then "gif" else "image/gif")
  else if buffer.getD 0 0 = 0x52 ∧ buffer.getD 1 0 = 0x49 ∧
      buffer.getD 2 0 = 0x46 ∧ buffer.getD 3 0 = 0x46 ∧
      buffer.getD 8 0 = 0x57 ∧ buffer.getD 9 0 = 0x45 ∧
      buffer.getD 10 0 = 0x42 ∧ buffer.getD 11 0 = 0x50 then
    some (if pureExt then "webp" else "image/webp")
  else if checkIsImage then none
  else some (if pureExt then "jpg" else "image/jpeg")

/-- The 8-byte PNG magic `89 50 4E 47 0D 0A 1A 0A`. -/
def pngMagic : List Nat := [0x89, 0x50, 0x4e, 0x47, 0x0d, 0x0a, 0x1a, 0x0a]

/-- Static context of a `ChatLunaStorageService` instance: its configuration
together with the deterministic behaviour of the objects it owns.
`hash` is `computeHash` from `src/utils.ts` (SHA-256 hex digest of the
buffer), kept abstract; `uploadKey` / `uploadPublicUrl` are the `key` and
`publicUrl` fields of the `StorageResult` the active backend's `upload`
returns for a filename; `backendType` is `storageBackend.type`;
`tempCacheTime` is `config.tempCacheTime` (hours); `backendPath` is the
resolved public base path. -/
structure ManagerCtx where
  hash : List Nat → String
  backendType : String
  uploadKey : String → String
  uploadPublicUrl : String → Option String
  tempCacheTime : Nat
  backendPath : String

/-- Ambient I/O of a run: `readFile` is `fs.readFile` (the promise it
returns), `backendDownload` is `storageBackend.download`.  Both are promises,
so a failure is a *rejected value*, not a synchronous exception. -/
structure Env where
  readFile : String → Except String (List Nat)
  backendDownload : String → Except String (List Nat)

/-- Mutable state of the manager: the `chatluna_storage_temp` table, the
recency index, and (for the dedup claims) a counter of backend `upload`
calls.  The sentinel-bounded doubly-linked LRU list plus `lruMap` of the
source is represented by its id sequence, head (most recent) first; the map
is its set of members.  `addToLRU` / `removeFromLRU` below act on this
sequence exactly as the pointer operations act on the list. -/
structure StorageState where
  db : List TempFileInfo
  lru : List String
  uploads : Nat
deriving DecidableEq

/-- `addToLRU` (service/storage): if present, unlink the node, then insert a
fresh node right after the head sentinel. -/
def addToLRU (lru : List String) (fileId : String) : List String :=
  fileId :: lru.filter (fun x => decide (x ≠ fileId))

/-- `removeFromLRU` (service/storage): unlink the node and drop it from the
map; no-op if absent. -/
def removeFromLRU (lru : List String) (fileId : String) : List String :=
  lru.filter (fun x => decide (x ≠ fileId))

/-- The row update performed by `database.set('chatluna_storage_temp',
{ id }, { accessTime, accessCount })` on one row. -/
def setAccessFn (i : String) (t c : Nat) (f : TempFileInfo) : TempFileInfo :=
  if f.id = i then { f with accessTime := t, accessCount := c } else f

/-- `database.set` with an id filter updates every matching row. -/
def dbSetAccess (db : List TempFileInfo) (i : String) (t c : Nat) :
    List TempFileInfo :=
  db.map (setAccessFn i t c)

/-- `randomName.split('.')[0]`: the stem of a filename, i.e. everything
before the first `.` (the whole string when it has no dot).  JS
`String.split` always returns a non-empty array, so index 0 is total. -/
def idStem (s : String) : String := String.mk (s.data.takeWhile (· ≠ '.'))

/-- `expireHours || this.config.tempCacheTime`: JS `||` takes the right
operand when the left is *falsy*, i.e. when `expireHours` is `undefined`
(the caller omitted it) or `0`. -/
def ttlOrDefault (expireHours : Option Nat) (tempCacheTime : Nat) : Nat :=
  match expireHours with
  | none => tempCacheTime
  | some h => if h = 0 then tempCacheTime else h

/-- `downloadFile` (manager, `src/unnamed/part_000` lines 202-208): use the
active backend only when the record's storage type is remote *and* matches
the active backend's type; otherwise read `file.path` from the local
filesystem. -/
def downloadFile (ctx : ManagerCtx) (env : Env) (file : TempFileInfo) :
    Except String (List Nat) :=
  let storageType := file.storageType.getD "local"
  if storageType ≠ "local" ∧ ctx.backendType = storageType then
    env.backendDownload file.path
  else
    env.readFile file.path

/-- Byte-resolution branch of `getTempFile` in the variant implementation
`src/src/service/storage.ts` lines 386-400: local records read from disk,
matching remote backends download, mismatched remote types fall back to a
local read of `file.path`. -/
def getTempFileDataRoute (backendType : String) (env : Env)
    (file : TempFileInfo) : Except String (List Nat) :=
  let storageType := file.storageType.getD "local"
  if storageType = "local" then env.readFile file.path
  else if backendType = storageType then env.backendDownload file.path
  else env.readFile file.path

/-- Result of `createTempFile` / `getTempFile`: the record spread together
with the byte-producing promise and the resolved URL
(`TempFileInfoWithData` in `src/types.ts`). -/
structure TempFileWithData where
  info : TempFileInfo
  data : Except String (List Nat)
  url : String

/-- Dedup-hit branch of `createTempFile` (`src/unnamed/part_000` lines
281-304): refresh access metadata of the first record matching the hash,
refresh recency, return the existing record with the requested download. -/
def createHit (ctx : ManagerCtx) (env : Env) (s : StorageState)
    (dup : TempFileInfo) (now : Nat) : StorageState × TempFileWithData :=
  ({ db := dbSetAccess s.db dup.id now (dup.accessCount + 1),
     lru := addToLRU s.lru dup.id,
     uploads := s.uploads },
   { info := { dup with accessTime := now, accessCount := dup.accessCount + 1 },
     data := downloadFile ctx env dup,
     url := dup.publicUrl.getD (ctx.backendPath ++ "/temp/" ++ dup.name) })

/-- The `TempFileInfo` row built by the miss branch of `createTempFile`.
`freshName` is the value of `randomFileName(filename)` (timestamp + random
suffix + original extension), supplied as an oracle for the randomness. -/
def missRecord (ctx : ManagerCtx) (buffer : List Nat) (hash : String)
    (freshName : String) (expireHours : Option Nat) (now : Nat) :
    TempFileInfo :=
  let fileType := getImageType buffer true true
  let randomName := match fileType with
    | some ext => idStem freshName ++ "." ++ ext
    | none => freshName
  { id := idStem randomName,
    path := ctx.uploadKey randomName,
    name := randomName,
    type := fileType,
    expireTime := now + ttlOrDefault expireHours ctx.tempCacheTime * (60 * 60 * 1000),
    size := buffer.length,
    accessTime := now,
    accessCount := 1,
    storageType := some ctx.backendType,
    publicUrl := ctx.uploadPublicUrl randomName,
    hash := hash }

/-- Miss branch of `createTempFile` (`src/unnamed/part_000` lines 306-343):
classify, rename, upload, persist with `accessCount = 1`, insert into the
recency index, return the original bytes without a re-download. -/
def createMiss (ctx : ManagerCtx) (s : StorageState) (buffer : List Nat)
    (hash : String) (freshName : String) (expireHours : Option Nat)
    (now : Nat) : StorageState × TempFileWithData :=
  let fileInfo := missRecord ctx buffer hash freshName expireHours now
  ({ db := s.db ++ [fileInfo],
     lru := addToLRU s.lru fileInfo.id,
     uploads := s.uploads + 1 },
   { info := fileInfo,
     data := Except.ok buffer,
     url := fileInfo.publicUrl.getD (ctx.backendPath ++ "/temp/" ++ fileInfo.name) })

/-- `createTempFile` (`src/unnamed/part_000` lines 268-343): compute the
content hash, look up an existing row by hash, then dedup-hit or miss. -/
def createTempFile (ctx : ManagerCtx) (env : Env) (s : StorageState)
    (buffer : List Nat) (freshName : String) (expireHours : Option Nat)
    (now : Nat) : StorageState × TempFileWithData :=
  let hash := ctx.hash buffer
  match s.db.filter (fun f => decide (f.hash = hash)) with
  | dup :: _ => createHit ctx env s dup now
  | [] => createMiss ctx s buffer hash freshName expireHours now

/-- `getTempFile` (`src/unnamed/part_000` lines 345-402): look up by id,
fall back to name, bump access fields, refresh recency, resolve the byte
promise.  Two faithful-to-the-source subtleties: the recency insertion and
the `catch` clean-up are keyed by the *parameter* `id`, not `file.id`; and
the `try` block only creates promises (`downloadFile` never throws
synchronously — `fs.readFile` / `backend.download` return rejected promises
on failure), so the `catch` branch is unreachable and a failed read is
returned to the caller inside `data`.  The asynchronous best-effort hash
backfill mutates the row only after the call returns and is not part of
this synchronous transition. -/
def getTempFile (ctx : ManagerCtx) (env : Env) (s : StorageState)
    (id : String) (now : Nat) : StorageState × Option TempFileWithData :=
  let byId := s.db.filter (fun f => decide (f.id = id))
  let fileInfo := if byId.isEmpty then
      s.db.filter (fun f => decide (f.name = id))
    else byId
  match fileInfo with
  | [] => (s, none)
  | file :: _ =>
    let bumped := { file with accessTime := now, accessCount := file.accessCount + 1 }
    ({ db := dbSetAccess s.db file.id now (file.accessCount + 1),
       lru := addToLRU s.lru id,
       uploads := s.uploads },
     some { info := bumped,
            data := downloadFile ctx env file,
            url := file.publicUrl.getD (ctx.backendPath ++ "/temp/" ++ file.name) })

/-- The first row of the hash-equality lookup `database.get({hash})`. -/
def findByHash (db : List TempFileInfo) (h : String) : Option TempFileInfo :=
  (db.filter (fun f => decide (f.hash = h))).head?

/-- Comparator of both cleanup sorts: `(a, b) => a.accessTime - b.accessTime`,
i.e. ascending `accessTime` (coldest first). -/
def accessLe (a b : TempFileInfo) : Prop := a.accessTime ≤ b.accessTime

instance : DecidableRel accessLe := fun a b => Nat.decLe a.accessTime b.accessTime

instance : IsTotal TempFileInfo accessLe := ⟨fun a b => Nat.le_total a.accessTime b.accessTime⟩

instance : IsTrans TempFileInfo accessLe := ⟨fun _ _ _ => Nat.le_trans⟩

/-- `files.sort((a, b) => a.accessTime.getTime() - b.accessTime.getTime())`.
JS `Array.sort` is a stable ascending sort for this comparator; insertion
sort with the non-strict `accessLe` is stable, so it computes the same
permutation. -/
def sortByAccessTime (files : List TempFileInfo) : List TempFileInfo :=
  List.insertionSort accessLe files

/-- `files.reduce((sum, file) => sum + file.size, 0)`. -/
def totalSize (files : List TempFileInfo) : Nat :=
  (files.map (fun f => f.size)).sum

/-- Eviction loop of `cleanupByStorageSize`: walk the coldest-first list,
stop as soon as `currentSize <= maxSizeBytes * 0.8`, otherwise remove the
record and subtract its size.  The comparison with the 80% threshold is the
exact-arithmetic `5 * currentSize ≤ 4 * maxSizeBytes` (sizes and budgets are
integers, so `currentSize <= maxSizeBytes * 0.8` is this inequality).
Returns the records that survive. -/
def sizeEvictLoop (maxSizeBytes : Nat) : Nat → List TempFileInfo → List TempFileInfo
  | _, [] => []
  | currentSize, f :: rest =>
    if 5 * currentSize ≤ 4 * maxSizeBytes then f :: rest
    else sizeEvictLoop maxSizeBytes (currentSize - f.size) rest

/-- `cleanupByStorageSize` (`src/unnamed/part_000` lines 172-187), as the
function from the record set to the set of surviving records.
`maxStorageSize` is in MB (`maxSizeBytes = maxStorageSize * 1024 * 1024`).
Each removal is `removeFile`: best-effort backend delete, metadata delete,
recency removal. -/
def cleanupByStorageSize (maxStorageSize : Nat) (files : List TempFileInfo) :
    List TempFileInfo :=
  let maxSizeBytes := maxStorageSize * 1024 * 1024
  if totalSize files ≤ maxSizeBytes then files
  else sizeEvictLoop maxSizeBytes (totalSize files) (sortByAccessTime files)

/-- `cleanupByFileCount` (`src/unnamed/part_000` lines 189-200), as the
function from the record set to the set of surviving records.  Removes the
first `files.length - Math.floor(maxStorageCount * 0.8)` records of the
coldest-first sort when the count exceeds the budget.  `Math.floor(max *
0.8)` on integer budgets is the exact `4 * max / 5` (floor division). -/
def cleanupByFileCount (maxStorageCount : Nat) (files : List TempFileInfo) :
    List TempFileInfo :=
  if files.length ≤ maxStorageCount then files
  else
    let filesToDelete := files.length - 4 * maxStorageCount / 5
    (sortByAccessTime files).drop filesToDelete

/-- `Response.ok` of the Fetch API: status in the 2xx range. -/
def responseOk (status : Nat) : Prop := 200 ≤ status ∧ status < 300

instance (status : Nat) : Decidable (responseOk status) := by
  unfold responseOk; infer_instance

/-- Outcome of `S3StorageBackend.delete` (`src/unnamed/part_003` lines
104-138) given the HTTP status of the DELETE request: throws unless the
response is 2xx or 404. -/
def s3DeleteResult (status : Nat) : Except String Unit :=
  if ¬ responseOk status ∧ status ≠ 404 then
    Except.error "S3 delete failed"
  else Except.ok ()

/-- Outcome of `R2StorageBackend.delete` (`src/unnamed/part_001` lines
112-146): throws unless the response is 2xx or 404. -/
def r2DeleteResult (status : Nat) : Except String Unit :=
  if ¬ responseOk status ∧ status ≠ 404 then
    Except.error "R2 delete failed"
  else Except.ok ()

/-- Outcome of `WebDAVStorageBackend.delete` (`src/backends/webdav.ts` lines
74-91): throws unless the response is 2xx or 404. -/
def webdavDeleteResult (status : Nat) : Except String Unit :=
  if ¬ responseOk status ∧ status ≠ 404 then
    Except.error "WebDAV delete failed"
  else Except.ok ()

/-- Outcome of `LocalStorageBackend.delete` (`src/types.ts` part, lines
53-59): `fs.unlink` inside `try { .. } catch { /* ignore */ }` — every
outcome of the unlink, including "file does not exist", is swallowed. -/
def localDeleteResult (unlinkOutcome : Except String Unit) : Except String Unit :=
  match unlinkOutcome with
  | _ => Except.ok ()

/-- Status a conforming object store / WebDAV server answers to DELETE
(§4.1, §6 of the spec): 204 when the key exists, 404 when it does not. -/
def deleteStatus (store : List String) (key : String) : Nat :=
  if key ∈ store then 204 else 404

/-- Store contents after a DELETE request. -/
def storeAfterDelete (store : List String) (key : String) : List String :=
  store.filter (fun k => decide (k ≠ key))

/-- `String.prototype.toLowerCase()` on ASCII header names. -/
def toLowerStr (s : String) : String := s.map Char.toLower

/-- `Array.prototype.sort()` on strings: stable ascending lexicographic
sort, computed here by the (stable) insertion sort. -/
def sortStrings (l : List String) : List String :=
  List.insertionSort (fun a b : String => a ≤ b) l

/-- `headers[Object.keys(headers).find((k) => k.toLowerCase() === h)!]`:
the value of the first header whose lower-cased name is `h` (the `!`
assertion is total because `h` is always drawn from the lower-cased keys;
a missing key is mapped to `""`). -/
def headerValue (headers : List (String × String)) (lowerName : String) :
    String :=
  match headers.find? (fun p => decide (toLowerStr p.1 = lowerName)) with
  | some p => p.2
  | none => ""

/-- Cryptographic primitives of `node:crypto` used by the signers, kept
abstract: `sha256Hex s` is `createHash('sha256').update(s).digest('hex')`,
`hmacSha256 k m` is `createHmac('sha256', k).update(m).digest()` (the raw
digest, a byte string), and `hexDigest d` is the hex rendering `.digest('hex')`
of the same raw digest `d`. -/
structure SigningEnv where
  sha256Hex : String → String
  hmacSha256 : String → String → String
  hexDigest : String → String

/-- `getSigningKey` of `S3StorageBackend` (`src/unnamed/part_003` lines
240-254): the chained HMAC key derivation. -/
def s3GetSigningKey (env : SigningEnv) (secretAccessKey dateStamp region service : String) :
    String :=
  let kDate := env.hmacSha256 ("AWS4" ++ secretAccessKey) dateStamp
  let kRegion := env.hmacSha256 kDate region
  let kService := env.hmacSha256 kRegion service
  env.hmacSha256 kService "aws4_request"

/-- `getSigningKey` of `R2StorageBackend` (`src/unnamed/part_001` lines
235-249): textually identical to the S3 one. -/
def r2GetSigningKey (env : SigningEnv) (secretAccessKey dateStamp region service : String) :
    String :=
  let kDate := env.hmacSha256 ("AWS4" ++ secretAccessKey) dateStamp
  let kRegion := env.hmacSha256 kDate region
  let kService := env.hmacSha256 kRegion service
  env.hmacSha256 kService "aws4_request"

/-- `generateAuthorizationHeader` of `S3StorageBackend`
(`src/unnamed/part_003` lines 188-238).  `region` is
`this.config.region`, the service is the literal `'s3'`. -/
def s3GenerateAuthorizationHeader (env : SigningEnv)
    (region bucket accessKeyId secretAccessKey : String)
    (method key : String) (headers : List (String × String))
    (payloadHash dateStamp amzDate : String) : String :=
  let service := "s3"
  let canonicalUri := "/" ++ bucket ++ "/" ++ key
  let canonicalQueryString := ""
  let lowerNames := sortStrings (headers.map (fun p => toLowerStr p.1))
  let signedHeaders := String.intercalate ";" lowerNames
  let canonicalHeaders :=
    String.intercalate "\n"
      (lowerNames.map (fun h => h ++ ":" ++ (headerValue headers h).trim)) ++ "\n"
  let canonicalRequest :=
    String.intercalate "\n"
      [method, canonicalUri, canonicalQueryString, canonicalHeaders,
       signedHeaders, payloadHash]
  let algorithm := "AWS4-HMAC-SHA256"
  let credentialScope := dateStamp ++ "/" ++ region ++ "/" ++ service ++ "/aws4_request"
  let stringToSign :=
    String.intercalate "\n"
      [algorithm, amzDate, credentialScope, env.sha256Hex canonicalRequest]
  let signingKey := s3GetSigningKey env secretAccessKey dateStamp region service
  let signature := env.hexDigest (env.hmacSha256 signingKey stringToSign)
  algorithm ++ " Credential=" ++ accessKeyId ++ "/" ++ credentialScope ++
    ", SignedHeaders=" ++ signedHeaders ++ ", Signature=" ++ signature

/-- `generateAuthorizationHeader` of `R2StorageBackend`
(`src/unnamed/part_001` lines 182-233): same algorithm with the region
hard-wired to `'auto'`. -/
def r2GenerateAuthorizationHeader (env : SigningEnv)
    (bucket accessKeyId secretAccessKey : String)
    (method key : String) (headers : List (String × String))
    (payloadHash dateStamp amzDate : String) : String :=
  let region := "auto"
  let service := "s3"
  let canonicalUri := "/" ++ bucket ++ "/" ++ key
  let canonicalQueryString := ""
  let lowerNames := sortStrings (headers.map (fun p => toLowerStr p.1))
  let signedHeaders := String.intercalate ";" lowerNames
  let canonicalHeaders :=
    String.intercalate "\n"
      (lowerNames.map (fun h => h ++ ":" ++ (headerValue headers h).trim)) ++ "\n"
  let canonicalRequest :=
    String.intercalate "\n"
      [method, canonicalUri, canonicalQueryString, canonicalHeaders,
       signedHeaders, payloadHash]
  let algorithm := "AWS4-HMAC-SHA256"
  let credentialScope := dateStamp ++ "/" ++ region ++ "/" ++ service ++ "/aws4_request"
  let stringToSign :=
    String.intercalate "\n"
      [algorithm, amzDate, credentialScope, env.sha256Hex canonicalRequest]
  let signingKey := r2GetSigningKey env secretAccessKey dateStamp region service
  let signature := env.hexDigest (env.hmacSha256 signingKey stringToSign)
  algorithm ++ " Credential=" ++ accessKeyId ++ "/" ++ credentialScope ++
    ", SignedHeaders=" ++ signedHeaders ++ ", Signature=" ++ signature

/-- Modelled from the spec (§4.1 Request Signer, step 1): canonical request
`METHOD\nURI\nQUERY\nHEADER_LINES\nSIGNED_HEADER_NAMES\nPAYLOAD_HASH`, where
the header lines are each lower-cased header name + `:` + trimmed value,
sorted lexicographically by header name, newline-joined with a trailing
newline, and the signed-header-names are the same sorted list of lower-cased
names joined by `;`. -/
def specCanonicalRequest (method uri query : String)
    (headers : List (String × String)) (payloadHash : String) : String :=
  let sortedNames := sortStrings (headers.map (fun p => toLowerStr p.1))
  let headerLines :=
    String.intercalate "\n"
      (sortedNames.map (fun h => h ++ ":" ++ (headerValue headers h).trim)) ++ "\n"
  let signedHeaderNames := String.intercalate ";" sortedNames
  String.intercalate "\n"
    [method, uri, query, headerLines, signedHeaderNames, payloadHash]

/-- Modelled from the spec (§4.1 Request Signer, step 2): string-to-sign
`ALGORITHM\nTIMESTAMP\nCREDENTIAL_SCOPE\nHEX(SHA256(canonical_request))`
with the algorithm fixed to `AWS4-HMAC-SHA256`. -/
def specStringToSign (env : SigningEnv) (timestamp credentialScope canonicalRequest : String) :
    String :=
  String.intercalate "\n"
    ["AWS4-HMAC-SHA256", timestamp, credentialScope, env.sha256Hex canonicalRequest]

/-- Modelled from the spec (§4.1 Request Signer, step 3): signing key
`HMAC(HMAC(HMAC(HMAC("AWS4"+secret, date), region), service), "aws4_request")`. -/
def specSigningKey (env : SigningEnv) (secret date region service : String) : String :=
  env.hmacSha256
    (env.hmacSha256 (env.hmacSha256 (env.hmacSha256 ("AWS4" ++ secret) date) region) service)
    "aws4_request"

/-- Modelled from the spec (§4.1 Request Signer, step 4 and §4.2.C5): the
full Authorization header over the empty query and the `/bucket/key` URI:
credential scope `date/region/service/aws4_request`, final value
`AWS4-HMAC-SHA256 Credential=<accessKey>/<scope>, SignedHeaders=<names>,
Signature=<hex signature>`. -/
def specAuthorizationHeader (env : SigningEnv) (region service : String)
    (bucket accessKeyId secret : String) (method key : String)
    (headers : List (String × String)) (payloadHash dateStamp amzDate : String) :
    String :=
  let credentialScope := dateStamp ++ "/" ++ region ++ "/" ++ service ++ "/aws4_request"
  let canonicalRequest :=
    specCanonicalRequest method ("/" ++ bucket ++ "/" ++ key) "" headers payloadHash
  let stringToSign := specStringToSign env amzDate credentialScope canonicalRequest
  let signature :=
    env.hexDigest (env.hmacSha256 (specSigningKey env secret dateStamp region service) stringToSign)
  let signedHeaderNames :=
    String.intercalate ";" (sortStrings (headers.map (fun p => toLowerStr p.1)))
  "AWS4-HMAC-SHA256" ++ " Credential=" ++ accessKeyId ++ "/" ++ credentialScope ++
    ", SignedHeaders=" ++ signedHeaderNames ++ ", Signature=" ++ signature

/-- A concrete manager context for evaluation: local backend, default
`tempCacheTime` 720 hours (30 days), a constant content hash. -/
def ctxDemo : ManagerCtx :=
  { hash := fun _ => "h0",
    backendType := "local",
    uploadKey := fun n => "/data/temp/" ++ n,
    uploadPublicUrl := fun _ => none,
    tempCacheTime := 720,
    backendPath := "/chatluna-storage" }

/-- An environment whose reads succeed. -/
def envDemo : Env :=
  { readFile := fun _ => Except.ok [1, 2, 3],
    backendDownload := fun _ => Except.ok [1, 2, 3] }

/-- An environment whose reads fail: the file is missing from disk and the
object is missing from the remote backend. -/
def envReadFail : Env :=
  { readFile := fun _ => Except.error "ENOENT: no such file or directory",
    backendDownload := fun _ => Except.error "S3 download failed: 404" }

/-- A metadata row whose backing content is unreadable (integrity fault). -/
def recOrphan : TempFileInfo :=
  { id := "a", path := "/data/temp/a.png", name := "a.png", type := none,
    expireTime := 99, size := 3, accessTime := 0, accessCount := 0,
    storageType := none, publicUrl := none, hash := "h" }

/-- A record stored under the `s3` backend while the active backend is a
different type. -/
def recForeign : TempFileInfo :=
  { id := "b", path := "temp/b.png", name := "b.png", type := none,
    expireTime := 0, size := 1, accessTime := 0, accessCount := 1,
    storageType := some "s3", publicUrl := none, hash := "hh" }

/-- A record with access time `i`, for the count-policy evaluation. -/
def countFile (i : Nat) : TempFileInfo :=
  { id := "f", path := "p", name := "n", type := none, expireTime := 0,
    size := 1, accessTime := i, accessCount := 0, storageType := none,
    publicUrl := none, hash := "" }

/-- Eleven records with distinct access times. -/
def elevenFiles : List TempFileInfo := (List.range 11).map countFile

/-- A record with access time `t` and size `sz` bytes, for the size-policy
evaluation. -/
def sizedFile (t sz : Nat) : TempFileInfo :=
  { id := "s", path := "p", name := "n", type := none, expireTime := 0,
    size := sz, accessTime := t, accessCount := 0, storageType := none,
    publicUrl := none, hash := "" }

/-- Three records summing to 1 300 000 bytes, coldest first is the largest. -/
def sampleSized : List TempFileInfo :=
  [sizedFile 1 600000, sizedFile 2 500000, sizedFile 3 200000]

/-- A 12-byte buffer beginning with the PNG magic. -/
def magicBuf12 : List Nat := pngMagic ++ [0, 0, 0, 0]

/- ------------------------------------------------------------------ -/
/- Helper lemmas shared by the claim theorems                          -/
/- ------------------------------------------------------------------ -/

theorem setAccessFn_hash (i : String) (t c : Nat) (f : TempFileInfo) :
    (setAccessFn i t c f).hash = f.hash := by
  unfold setAccessFn; split <;> rfl

theorem filter_hash_dbSetAccess (db : List TempFileInfo) (i : String) (t c : Nat) (h : String) :
    (dbSetAccess db i t c).filter (fun f => decide (f.hash = h)) =
      (db.filter (fun f => decide (f.hash = h))).map (setAccessFn i t c) := by
  unfold dbSetAccess
  induction db with
  | nil => rfl
  | cons f fs ih =>
    simp only [List.map_cons, List.filter_cons, setAccessFn_hash]
    by_cases hc : f.hash = h
    · simp [hc, ih]
    · simp [hc, ih]

theorem createTempFile_hit (ctx : ManagerCtx) (env : Env) (s : StorageState)
    (buffer : List Nat) (freshName : String) (expireHours : Option Nat) (now : Nat)
    (d : TempFileInfo) (rest : List TempFileInfo)
    (hfil : s.db.filter (fun f => decide (f.hash = ctx.hash buffer)) = d :: rest) :
    createTempFile ctx env s buffer freshName expireHours now = createHit ctx env s d now := by
  simp only [createTempFile]
  rw [hfil]

theorem createTempFile_missing (ctx : ManagerCtx) (env : Env) (s : StorageState)
    (buffer : List Nat) (freshName : String) (expireHours : Option Nat) (now : Nat)
    (hfil : s.db.filter (fun f => decide (f.hash = ctx.hash buffer)) = []) :
    createTempFile ctx env s buffer freshName expireHours now =
      createMiss ctx s buffer (ctx.hash buffer) freshName expireHours now := by
  simp only [createTempFile]
  rw [hfil]

theorem missRecord_hash (ctx : ManagerCtx) (buffer : List Nat) (h freshName : String)
    (expireHours : Option Nat) (now : Nat) :
    (missRecord ctx buffer h freshName expireHours now).hash = h := rfl

theorem totalSize_cons (f : TempFileInfo) (l : List TempFileInfo) :
    totalSize (f :: l) = f.size + totalSize l := by
  simp [totalSize]

theorem sizeEvictLoop_drop (maxB : Nat) (l : List TempFileInfo) :
    ∃ k, k ≤ l.length ∧ sizeEvictLoop maxB (totalSize l) l = l.drop k ∧
      5 * totalSize (l.drop k) ≤ 4 * maxB ∧
      ∀ j < k, 4 * maxB < 5 * totalSize (l.drop j) := by
  induction l with
  | nil =>
    refine ⟨0, Nat.le_refl 0, rfl, ?_, ?_⟩
    · simp [totalSize]
    · intro j hj; omega
  | cons f rest ih =>
    by_cases h : 5 * totalSize (f :: rest) ≤ 4 * maxB
    · refine ⟨0, Nat.zero_le _, ?_, ?_, ?_⟩
      · simp [sizeEvictLoop, h]
      · simpa using h
      · intro j hj; omega
    · obtain ⟨k, hk, heq, hth, hmin⟩ := ih
      refine ⟨k + 1, Nat.succ_le_succ hk, ?_, ?_, ?_⟩
      · have hsub : totalSize (f :: rest) - f.size = totalSize rest := by
          rw [totalSize_cons]; omega
        rw [List.drop_succ_cons, ← heq]
        simp only [sizeEvictLoop, if_neg h, hsub]
      · rw [List.drop_succ_cons]; exact hth
      · intro j hj
        cases j with
        | zero => simpa using Nat.lt_of_not_le h
        | succ j' =>
          rw [List.drop_succ_cons]
          exact hmin j' (Nat.lt_of_succ_lt_succ hj)

theorem totalSize_sort (files : List TempFileInfo) :
    totalSize (sortByAccessTime files) = totalSize files := by
  unfold totalSize
  exact ((List.perm_insertionSort accessLe files).map (fun f => f.size)).sum_eq

/- ------------------------------------------------------------------ -/
/- Claim theorems                                                      -/
/- ------------------------------------------------------------------ -/

/-- C1: for every pair of `createTempFile` calls on the same byte buffer
(whatever the filenames, TTLs and call times), the second call performs no
backend upload (`uploads` unchanged) and creates no second metadata record
(`db.length` unchanged); it updates the existing record found by hash —
setting its `accessTime` to the current time and incrementing its
`accessCount` by one — and returns that existing record. -/
theorem createTempFile_dedup_spec (ctx : ManagerCtx) (env : Env) (s : StorageState)
    (buffer : List Nat) (n1 n2 : String) (ttl1 ttl2 : Option Nat) (now1 now2 : Nat) :
    ∃ dup,
      findByHash (createTempFile ctx env s buffer n1 ttl1 now1).1.db (ctx.hash buffer) = some dup ∧
      (createTempFile ctx env (createTempFile ctx env s buffer n1 ttl1 now1).1 buffer n2 ttl2 now2).1.uploads
        = (createTempFile ctx env s buffer n1 ttl1 now1).1.uploads ∧
      (createTempFile ctx env (createTempFile ctx env s buffer n1 ttl1 now1).1 buffer n2 ttl2 now2).1.db.length
        = (createTempFile ctx env s buffer n1 ttl1 now1).1.db.length ∧
      (createTempFile ctx env (createTempFile ctx env s buffer n1 ttl1 now1).1 buffer n2 ttl2 now2).1.db
        = dbSetAccess (createTempFile ctx env s buffer n1 ttl1 now1).1.db dup.id now2 (dup.accessCount + 1) ∧
      (createTempFile ctx env (createTempFile ctx env s buffer n1 ttl1 now1).1 buffer n2 ttl2 now2).2.info
        = { dup with accessTime := now2, accessCount := dup.accessCount + 1 } := by
  rcases hfil : s.db.filter (fun f => decide (f.hash = ctx.hash buffer)) with _ | ⟨d, rest⟩
  · rw [createTempFile_missing ctx env s buffer n1 ttl1 now1 hfil]
    have hfil2 : (createMiss ctx s buffer (ctx.hash buffer) n1 ttl1 now1).1.db.filter
        (fun f => decide (f.hash = ctx.hash buffer))
        = [missRecord ctx buffer (ctx.hash buffer) n1 ttl1 now1] := by
      show (s.db ++ [missRecord ctx buffer (ctx.hash buffer) n1 ttl1 now1]).filter
        (fun f => decide (f.hash = ctx.hash buffer)) = _
      simp [List.filter_append, hfil, missRecord_hash]
    rw [createTempFile_hit ctx env _ buffer n2 ttl2 now2 _ [] hfil2]
    refine ⟨missRecord ctx buffer (ctx.hash buffer) n1 ttl1 now1, ?_, rfl, ?_, rfl, rfl⟩
    · unfold findByHash
      rw [hfil2]
      rfl
    · show (dbSetAccess (createMiss ctx s buffer (ctx.hash buffer) n1 ttl1 now1).1.db _ _ _).length = _
      simp [dbSetAccess]
  · rw [createTempFile_hit ctx env s buffer n1 ttl1 now1 d rest hfil]
    have hfil2 : (createHit ctx env s d now1).1.db.filter
        (fun f => decide (f.hash = ctx.hash buffer))
        = setAccessFn d.id now1 (d.accessCount + 1) d
            :: rest.map (setAccessFn d.id now1 (d.accessCount + 1)) := by
      show (dbSetAccess s.db d.id now1 (d.accessCount + 1)).filter
        (fun f => decide (f.hash = ctx.hash buffer)) = _
      rw [filter_hash_dbSetAccess, hfil, List.map_cons]
    rw [createTempFile_hit ctx env _ buffer n2 ttl2 now2 _ _ hfil2]
    refine ⟨setAccessFn d.id now1 (d.accessCount + 1) d, ?_, rfl, ?_, rfl, rfl⟩
    · unfold findByHash
      rw [hfil2]
      rfl
    · show (dbSetAccess (createHit ctx env s d now1).1.db _ _ _).length = _
      simp [dbSetAccess]

/-- C2 (divergence): with a metadata record present but both reads failing,
`getTempFile` does *not* purge the record and does *not* return null: the
`try/catch` of the source only guards promise construction, which cannot
throw, so the call returns the record with the rejected read inside `data` —
the raw backend/filesystem error is handed to the caller, the row and the
recency entry survive. -/
theorem getTempFile_read_failure_not_purged :
    ((getTempFile ctxDemo envReadFail ⟨[recOrphan], ["a"], 0⟩ "a" 5).2.map (fun r => r.data)
        = some (Except.error "ENOENT: no such file or directory")) ∧
    ((getTempFile ctxDemo envReadFail ⟨[recOrphan], ["a"], 0⟩ "a" 5).1.db.map (fun f => f.id)
        = ["a"]) ∧
    ((getTempFile ctxDemo envReadFail ⟨[recOrphan], ["a"], 0⟩ "a" 5).1.lru = ["a"]) ∧
    ((getTempFile ctxDemo envReadFail ⟨[recOrphan], ["a"], 0⟩ "a" 5).2.isSome = true) :=
  ⟨rfl, rfl, rfl, rfl⟩

/-- C3: the count policy leaves a record set whose count is within
`maxStorageCount` unchanged; when the count exceeds the budget it removes
exactly the coldest records (every removed record is at most as recent as
every survivor) and the surviving count is `floor(0.8 * maxStorageCount)`. -/
theorem cleanupByFileCount_spec (maxCount : Nat) (files : List TempFileInfo) :
    (files.length ≤ maxCount → cleanupByFileCount maxCount files = files) ∧
    (maxCount < files.length →
      (cleanupByFileCount maxCount files).length = 4 * maxCount / 5 ∧
      ∀ r ∈ (sortByAccessTime files).take (files.length - 4 * maxCount / 5),
        ∀ q ∈ cleanupByFileCount maxCount files, r.accessTime ≤ q.accessTime) := by
  constructor
  · intro h; simp [cleanupByFileCount, h]
  · intro h
    have hnot : ¬ files.length ≤ maxCount := Nat.not_le.mpr h
    have hlen : (sortByAccessTime files).length = files.length :=
      (List.perm_insertionSort accessLe files).length_eq
    have hfloor : 4 * maxCount / 5 ≤ maxCount := by omega
    constructor
    · simp only [cleanupByFileCount, if_neg hnot, List.length_drop, hlen]
      omega
    · intro r hr q hq
      simp only [cleanupByFileCount, if_neg hnot] at hq
      have hpw : List.Pairwise accessLe (sortByAccessTime files) :=
        List.sorted_insertionSort accessLe files
      rw [← List.take_append_drop (files.length - 4 * maxCount / 5) (sortByAccessTime files)] at hpw
      exact (List.pairwise_append.mp hpw).2.2 r hr q hq

/-- C3 witness: with `maxStorageCount = 10`, ten records are left unchanged
and eleven records are evicted down to `floor(10 * 0.8) = 8`. -/
theorem cleanupByFileCount_spec_witness :
    cleanupByFileCount 10 (elevenFiles.take 10) = elevenFiles.take 10 ∧
    (cleanupByFileCount 10 elevenFiles).length = 4 * 10 / 5 :=
  ⟨(cleanupByFileCount_spec 10 (elevenFiles.take 10)).1 (by decide),
   ((cleanupByFileCount_spec 10 elevenFiles).2 (by decide)).1⟩

/-- C4: the size policy leaves a record set whose total size is within the
byte budget unchanged; when the total exceeds the budget it removes a
coldest-first prefix of the access-time sort, stopping at the first point
where the remaining total is at most 80% of the budget (each removed record
was removed while the running total still exceeded the threshold), and every
removed record is at most as recent as every survivor. -/
theorem cleanupByStorageSize_spec (maxMB : Nat) (files : List TempFileInfo) :
    (totalSize files ≤ maxMB * 1024 * 1024 → cleanupByStorageSize maxMB files = files) ∧
    (maxMB * 1024 * 1024 < totalSize files →
      ∃ k, cleanupByStorageSize maxMB files = (sortByAccessTime files).drop k ∧
        5 * totalSize ((sortByAccessTime files).drop k) ≤ 4 * (maxMB * 1024 * 1024) ∧
        (∀ j < k, 4 * (maxMB * 1024 * 1024) < 5 * totalSize ((sortByAccessTime files).drop j)) ∧
        ∀ r ∈ (sortByAccessTime files).take k, ∀ q ∈ (sortByAccessTime files).drop k,
          r.accessTime ≤ q.accessTime) := by
  constructor
  · intro h; simp [cleanupByStorageSize, h]
  · intro h
    have hnot : ¬ totalSize files ≤ maxMB * 1024 * 1024 := Nat.not_le.mpr h
    obtain ⟨k, hk, heq, hth, hmin⟩ :=
      sizeEvictLoop_drop (maxMB * 1024 * 1024) (sortByAccessTime files)
    refine ⟨k, ?_, hth, hmin, ?_⟩
    · simp only [cleanupByStorageSize, if_neg hnot]
      rw [← totalSize_sort files]
      exact heq
    · intro r hr q hq
      have hpw : List.Pairwise accessLe (sortByAccessTime files) :=
        List.sorted_insertionSort accessLe files
      rw [← List.take_append_drop k (sortByAccessTime files)] at hpw
      exact (List.pairwise_append.mp hpw).2.2 r hr q hq

/-- C4 witness: a 2 MB budget leaves the 1 300 000-byte sample unchanged;
a 1 MB budget (1 048 576 bytes) evicts coldest-first until the remaining
total is at most 80% of the budget. -/
theorem cleanupByStorageSize_spec_witness :
    cleanupByStorageSize 2 sampleSized = sampleSized ∧
    (∃ k, cleanupByStorageSize 1 sampleSized = (sortByAccessTime sampleSized).drop k ∧
      5 * totalSize ((sortByAccessTime sampleSized).drop k) ≤ 4 * (1 * 1024 * 1024) ∧
      (∀ j < k, 4 * (1 * 1024 * 1024) < 5 * totalSize ((sortByAccessTime sampleSized).drop j)) ∧
      ∀ r ∈ (sortByAccessTime sampleSized).take k, ∀ q ∈ (sortByAccessTime sampleSized).drop k,
        r.accessTime ≤ q.accessTime) :=
  ⟨(cleanupByStorageSize_spec 2 sampleSized).1 (by decide),
   (cleanupByStorageSize_spec 1 sampleSized).2 (by decide)⟩

/-- C5: for every abstract SHA-256/HMAC implementation, method, bucket, key,
header map, payload hash, date stamp and timestamp, the S3 signer's
`Authorization` header equals the four-step SigV4 algorithm of the spec with
its configured region and service `s3`, the R2 signer's equals the same
algorithm with region fixed to `auto`, and the signed-header-name list both
use is lexicographically sorted. -/
theorem sigv4_authorization_refines_spec (env : SigningEnv)
    (region bucket accessKeyId secretAccessKey method key payloadHash dateStamp amzDate : String)
    (headers : List (String × String)) :
    s3GenerateAuthorizationHeader env region bucket accessKeyId secretAccessKey
        method key headers payloadHash dateStamp amzDate
      = specAuthorizationHeader env region "s3" bucket accessKeyId secretAccessKey
          method key headers payloadHash dateStamp amzDate ∧
    r2GenerateAuthorizationHeader env bucket accessKeyId secretAccessKey
        method key headers payloadHash dateStamp amzDate
      = specAuthorizationHeader env "auto" "s3" bucket accessKeyId secretAccessKey
          method key headers payloadHash dateStamp amzDate ∧
    List.Sorted (fun a b : String => a ≤ b)
      (sortStrings (headers.map (fun p => toLowerStr p.1))) :=
  ⟨rfl, rfl, List.sorted_insertionSort _ _⟩

/-- C6: for every store contents and key, DELETE against a conforming
object store succeeds on all four backends even when the object is absent
(404 is success), and a second DELETE of the same key — which necessarily
sees 404 — also succeeds, so deleting twice never raises. -/
theorem backendDelete_idempotent_spec (store : List String) (key : String)
    (unlink1 unlink2 : Except String Unit) :
    s3DeleteResult (deleteStatus store key) = Except.ok () ∧
    s3DeleteResult (deleteStatus (storeAfterDelete store key) key) = Except.ok () ∧
    webdavDeleteResult (deleteStatus store key) = Except.ok () ∧
    webdavDeleteResult (deleteStatus (storeAfterDelete store key) key) = Except.ok () ∧
    r2DeleteResult (deleteStatus store key) = Except.ok () ∧
    r2DeleteResult (deleteStatus (storeAfterDelete store key) key) = Except.ok () ∧
    localDeleteResult unlink1 = Except.ok () ∧
    localDeleteResult unlink2 = Except.ok () := by
  have h1 : deleteStatus store key = 204 ∨ deleteStatus store key = 404 := by
    unfold deleteStatus; split <;> simp
  have hkey : key ∉ storeAfterDelete store key := by simp [storeAfterDelete]
  have h2 : deleteStatus (storeAfterDelete store key) key = 404 := by
    simp [deleteStatus, hkey]
  refine ⟨?_, ?_, ?_, ?_, ?_, ?_, rfl, rfl⟩
  · rcases h1 with h | h <;> simp [s3DeleteResult, responseOk, h]
  · simp [s3DeleteResult, responseOk, h2]
  · rcases h1 with h | h <;> simp [webdavDeleteResult, responseOk, h]
  · simp [webdavDeleteResult, responseOk, h2]
  · rcases h1 with h | h <;> simp [r2DeleteResult, responseOk, h]
  · simp [r2DeleteResult, responseOk, h2]

/-- C7 counterexample: a caller-supplied `ttlHours = 0` does *not* give
`expireTime = now + 0 hours`: `expireHours || tempCacheTime` treats `0` as
falsy, so the default TTL (here 720 h) is used instead. -/
theorem createTempFile_ttl_zero_counterexample :
    ((createTempFile ctxDemo envDemo ⟨[], [], 0⟩ [9] "x.bin" (some 0) 1000).2.info.expireTime
        = 1000 + 720 * (60 * 60 * 1000)) ∧
    ((createTempFile ctxDemo envDemo ⟨[], [], 0⟩ [9] "x.bin" (some 0) 1000).2.info.expireTime
        ≠ 1000 + 0 * (60 * 60 * 1000)) := by
  constructor
  · rfl
  · decide

/-- C7 (amended): on a dedup miss, the created record is persisted (appended
to the table) with `accessCount = 1`, and its `expireTime` is the creation
time plus `expireHours || tempCacheTime` hours: the caller's TTL whenever it
is supplied and nonzero, and the configured default when the caller omitted
it *or passed 0*. -/
theorem createTempFile_expire_accessCount_spec (ctx : ManagerCtx) (env : Env)
    (s : StorageState) (buffer : List Nat) (freshName : String)
    (expireHours : Option Nat) (now : Nat)
    (hmiss : s.db.filter (fun f => decide (f.hash = ctx.hash buffer)) = []) :
    ((createTempFile ctx env s buffer freshName expireHours now).2.info.accessCount = 1) ∧
    ((createTempFile ctx env s buffer freshName expireHours now).1.db
        = s.db ++ [(createTempFile ctx env s buffer freshName expireHours now).2.info]) ∧
    ((createTempFile ctx env s buffer freshName expireHours now).2.info.expireTime
        = now + ttlOrDefault expireHours ctx.tempCacheTime * (60 * 60 * 1000)) ∧
    (∀ h, expireHours = some h → h ≠ 0 →
      (createTempFile ctx env s buffer freshName expireHours now).2.info.expireTime
        = now + h * (60 * 60 * 1000)) ∧
    (expireHours = some 0 →
      (createTempFile ctx env s buffer freshName expireHours now).2.info.expireTime
        = now + ctx.tempCacheTime * (60 * 60 * 1000)) ∧
    (expireHours = none →
      (createTempFile ctx env s buffer freshName expireHours now).2.info.expireTime
        = now + ctx.tempCacheTime * (60 * 60 * 1000)) := by
  rw [createTempFile_missing ctx env s buffer freshName expireHours now hmiss]
  refine ⟨rfl, rfl, rfl, ?_, ?_, ?_⟩
  · rintro h rfl hne
    show now + ttlOrDefault (some h) ctx.tempCacheTime * (60 * 60 * 1000) = _
    simp [ttlOrDefault, hne]
  · rintro rfl
    show now + ttlOrDefault (some 0) ctx.tempCacheTime * (60 * 60 * 1000) = _
    simp [ttlOrDefault]
  · rintro rfl
    rfl

/-- C7 witness: on an empty table, creating with `ttlHours = 5` at time 1000
persists `accessCount = 1` and `expireTime = 1000 + 5 hours`. -/
theorem createTempFile_expire_accessCount_spec_witness :
    (createTempFile ctxDemo envDemo ⟨[], [], 0⟩ [9] "x.bin" (some 5) 1000).2.info.accessCount = 1 ∧
    (createTempFile ctxDemo envDemo ⟨[], [], 0⟩ [9] "x.bin" (some 5) 1000).2.info.expireTime
      = 1000 + 5 * (60 * 60 * 1000) := by
  have h := createTempFile_expire_accessCount_spec ctxDemo envDemo ⟨[], [], 0⟩ [9] "x.bin"
    (some 5) 1000 rfl
  exact ⟨h.1, h.2.2.2.1 5 rfl (by decide)⟩

/-- C8 (divergence): the recency index is *not* one-to-one with live record
ids in every reachable state.  Creating one file (record id `abc`, name
`abc.png`) and then fetching it by *name* inserts the recency entry under
the query string `abc.png` (the source passes the raw parameter to
`addToLRU`), leaving two recency entries for one record, one of them keyed
by a string that is no record's id. -/
theorem getTempFile_byName_breaks_lru_id_invariant :
    ((getTempFile ctxDemo envDemo
        (createTempFile ctxDemo envDemo ⟨[], [], 0⟩ [1, 2, 3] "abc.png" none 1000).1
        "abc.png" 2000).1.lru = ["abc.png", "abc"]) ∧
    ((getTempFile ctxDemo envDemo
        (createTempFile ctxDemo envDemo ⟨[], [], 0⟩ [1, 2, 3] "abc.png" none 1000).1
        "abc.png" 2000).1.db.map (fun f => f.id) = ["abc"]) ∧
    ("abc.png" ∈ (getTempFile ctxDemo envDemo
        (createTempFile ctxDemo envDemo ⟨[], [], 0⟩ [1, 2, 3] "abc.png" none 1000).1
        "abc.png" 2000).1.lru) ∧
    ("abc.png" ∉ ((getTempFile ctxDemo envDemo
        (createTempFile ctxDemo envDemo ⟨[], [], 0⟩ [1, 2, 3] "abc.png" none 1000).1
        "abc.png" 2000).1.db.map (fun f => f.id))) := by
  refine ⟨rfl, rfl, ?_, ?_⟩ <;> decide

/-- C9 counterexample: the 8-byte buffer that *is* the PNG magic classifies
as "not an image" (the `length < 12` guard fires before the PNG check), so
"every buffer beginning with the PNG magic classifies as PNG" fails. -/
theorem getImageType_png_magic_short_counterexample :
    getImageType pngMagic true true = none ∧ pngMagic.take 8 = pngMagic := by
  constructor <;> decide

/-- C9 (amended): every buffer of length at least 12 that begins with the
PNG magic classifies as PNG (`png` or `image/png` according to the purity
flag), and every buffer shorter than 12 bytes with `checkIsImage = true`
classifies as "not an image" regardless of its leading bytes. -/
theorem getImageType_spec (buffer : List Nat) (pb ci : Bool) :
    (12 ≤ buffer.length → buffer.take 8 = pngMagic →
      getImageType buffer pb ci = some (if pb then "png" else "image/png")) ∧
    (buffer.length < 12 → ci = true → getImageType buffer pb ci = none) := by
  constructor
  · intro hlen hmagic
    obtain ⟨rest, rfl⟩ : ∃ rest, buffer = pngMagic ++ rest :=
      ⟨buffer.drop 8, by rw [← hmagic]; exact (List.take_append_drop 8 buffer).symm⟩
    simp only [pngMagic, List.cons_append, List.nil_append, List.length_cons] at hlen ⊢
    simp only [getImageType, List.length_cons, List.getD_cons_zero, List.getD_cons_succ]
    rw [if_neg (by omega), if_pos (by decide)]
  · intro hshort hci
    subst hci
    simp [getImageType, hshort]

/-- C9 witness: a 12-byte magic-prefixed buffer is PNG; a 3-byte buffer with
`checkIsImage = true` is "not an image". -/
theorem getImageType_spec_witness :
    getImageType magicBuf12 true true = some "png" ∧
    getImageType [1, 2, 3] false true = none :=
  ⟨(getImageType_spec magicBuf12 true true).1 (by decide) (by decide),
   (getImageType_spec [1, 2, 3] false true).2 (by decide) rfl⟩

/-- C10: a record stored under a remote backend type (`s3`, `webdav` or
`r2`) different from the active backend's type is resolved without any
backend call: both the manager's `downloadFile` and the byte-resolution
branch of the alternate `getTempFile` fall back to reading `record.path`
from the local filesystem. -/
theorem downloadFile_mismatch_falls_back_local (ctx : ManagerCtx) (env : Env)
    (file : TempFileInfo) (st : String) (hst : file.storageType = some st)
    (hremote : st = "s3" ∨ st = "webdav" ∨ st = "r2")
    (hne : ctx.backendType ≠ st) :
    downloadFile ctx env file = env.readFile file.path ∧
    getTempFileDataRoute ctx.backendType env file = env.readFile file.path := by
  have hlocal : st ≠ "local" := by rcases hremote with rfl | rfl | rfl <;> decide
  constructor
  · simp [downloadFile, hst, hne]
  · simp [getTempFileDataRoute, hst, hlocal, hne]

/-- C10 witness: an `s3`-stored record under an active `local` backend is
read from the local filesystem path. -/
theorem downloadFile_mismatch_falls_back_local_witness :
    downloadFile ctxDemo envDemo recForeign = envDemo.readFile "temp/b.png" ∧
    getTempFileDataRoute ctxDemo.backendType envDemo recForeign
      = envDemo.readFile "temp/b.png" :=
  downloadFile_mismatch_falls_back_local ctxDemo envDemo recForeign "s3" rfl
    (Or.inl rfl) (by decide)
